import Mathlib

/-!
# DisplayOptionWidget

A shallow embedding of `src/app/src/displayoptionwidget.cpp` (Pencil2D): the dock
panel with eight toggle buttons that mirrors the preference store, the view
manager and the type of the current layer.

The C++ methods mutate the widget and the objects reachable through `editor()`.
Here every method is a function on an explicit state, `DisplayOptionWidget`,
that holds the eight buttons, the connection table built by `makeConnections`,
the layout installed by `initUI`, and the editor-side state the methods read and
write (preferences, view flags, type of the current layer).

Qt is modelled only as far as the file uses it: a button has a checked flag, an
enabled flag and the `signalsBlocked` flag of `QObject`; `setChecked` emits
`toggled` when the checked flag changes and signals are not blocked; an emitted
signal runs the slots connected to it; `QSignalBlocker` blocks on construction
and restores the previous blocking state on destruction.

The notifications `optionChanged` and `viewFlipped` are emitted by the managers,
whose code is elsewhere: the connection table records that `makeConnections`
wires them to `updateUI`, and a resync after an external change is an explicit
call of `updateUI`.
-/

namespace Pencil

/-! ## Editor-side state -/

/-- Keys of the preference store. The eight keys read or written by
`displayoptionwidget.cpp` are named; `OTHER` stands for the remaining
enumerators of `SETTING`, whose declaration is not in this file. -/
inductive SETTING
  | INVISIBLE_LINES
  | OUTLINES
  | OVERLAY_CENTER
  | OVERLAY_THIRDS
  | OVERLAY_GOLDEN
  | OVERLAY_SAFE
  | ACTION_SAFE_ON
  | TITLE_SAFE_ON
  | OTHER (id : Nat)
  deriving DecidableEq, Repr

/-- The preference store: a boolean per setting key. -/
structure PreferenceManager where
  booleanSet : SETTING → Bool

/-- The getter `prefs->isOn(key)`. -/
def PreferenceManager.isOn (p : PreferenceManager) (key : SETTING) : Bool :=
  p.booleanSet key

/-- Modelled from the spec: `PreferenceManager::set(key, bool)`, whose body is
outside `displayoptionwidget.cpp`. The spec lists it as `set(key, bool)`, the
write that pairs with `isOn(key)` on a "mapping from setting-key to boolean
value": it stores the value under the key and leaves every other key. -/
def PreferenceManager.set (p : PreferenceManager) (key : SETTING) (value : Bool) :
    PreferenceManager :=
  { booleanSet := fun k => if k = key then value else p.booleanSet k }

/-- The view manager: two flip flags and four overlay flags. -/
structure ViewManager where
  isFlipHorizontal : Bool
  isFlipVertical : Bool
  overlayCenter : Bool
  overlayThirds : Bool
  overlayGoldenRatio : Bool
  overlaySafeAreas : Bool
  deriving DecidableEq, Repr

/-- Modelled from the spec: `ViewManager::flipHorizontal(bool)`, whose body is
outside `displayoptionwidget.cpp`. The spec gives "set ViewTransform horizontal
flip = isOn" and calls the six flags independent. -/
def ViewManager.flipHorizontal (v : ViewManager) (b : Bool) : ViewManager :=
  { v with isFlipHorizontal := b }

/-- Modelled from the spec: `ViewManager::flipVertical(bool)`, whose body is
outside `displayoptionwidget.cpp`. The spec gives "set ViewTransform vertical
flip = isOn". -/
def ViewManager.flipVertical (v : ViewManager) (b : Bool) : ViewManager :=
  { v with isFlipVertical := b }

/-- Modelled from the spec: `ViewManager::setOverlayCenter(bool)`, whose body is
outside `displayoptionwidget.cpp`. The spec says it "sets the corresponding flag
on ViewTransform". -/
def ViewManager.setOverlayCenter (v : ViewManager) (b : Bool) : ViewManager :=
  { v with overlayCenter := b }

/-- Modelled from the spec: `ViewManager::setOverlayThirds(bool)`, whose body is
outside `displayoptionwidget.cpp`. The spec says it "sets the corresponding flag
on ViewTransform". -/
def ViewManager.setOverlayThirds (v : ViewManager) (b : Bool) : ViewManager :=
  { v with overlayThirds := b }

/-- Modelled from the spec: `ViewManager::setOverlayGoldenRatio(bool)`, whose body is
outside `displayoptionwidget.cpp`. The spec says it "sets the corresponding flag
on ViewTransform". -/
def ViewManager.setOverlayGoldenRatio (v : ViewManager) (b : Bool) : ViewManager :=
  { v with overlayGoldenRatio := b }

/-- Modelled from the spec: `ViewManager::setOverlaySafeAreas(bool)`, whose body is
outside `displayoptionwidget.cpp`. The spec says it "sets the corresponding flag
on ViewTransform". -/
def ViewManager.setOverlaySafeAreas (v : ViewManager) (b : Bool) : ViewManager :=
  { v with overlaySafeAreas := b }

/-- The layer types. The source names only `Layer::VECTOR`; `OTHER` stands for
every other enumerator (bitmap, camera, sound, ...). -/
inductive LAYER_TYPE
  | VECTOR
  | OTHER (tag : Nat)
  deriving DecidableEq, Repr

/-- The layer manager, as far as the panel reads it:
`layers()->currentLayer()->type()`. A current layer is assumed to exist. -/
structure LayerManager where
  currentLayerType : LAYER_TYPE
  deriving DecidableEq, Repr

/-- What `editor()` gives access to. -/
structure Editor where
  preference : PreferenceManager
  view : ViewManager
  layers : LayerManager

/-- The two slots of `ScribbleArea` that `makeConnections` wires to the
thin-lines and outlines buttons. Their bodies are outside
`displayoptionwidget.cpp`, so their effect on the editor-side state is a
parameter. -/
structure ScribbleArea where
  toggleThinLines : Editor → Editor
  toggleOutlines : Editor → Editor

/-! ## Buttons, signals, connections -/

/-- The eight buttons of `Ui::DisplayOption`. -/
inductive Button
  | mirrorButton
  | mirrorVButton
  | thinLinesButton
  | outLinesButton
  | overlayCenterButton
  | overlayThirdsButton
  | overlayGoldenRatioButton
  | overlaySafeAreaButton
  deriving DecidableEq, Repr

/-- A checkable tool button: its checked flag, its own enabled flag (the one
`setEnabled` writes, not the state inherited from a disabled parent), and the
`signalsBlocked` flag every `QObject` has. The form that declares the buttons
(`ui_displayoption.h`) is generated elsewhere; the spec describes each
control as a toggle with a boolean checked state, so the buttons are taken to be
checkable. -/
structure QToolButton where
  checked : Bool
  enabled : Bool
  signalsBlocked : Bool
  deriving DecidableEq, Repr

/-- The form: one `QToolButton` per button name. -/
structure Ui where
  mirrorButton : QToolButton
  mirrorVButton : QToolButton
  thinLinesButton : QToolButton
  outLinesButton : QToolButton
  overlayCenterButton : QToolButton
  overlayThirdsButton : QToolButton
  overlayGoldenRatioButton : QToolButton
  overlaySafeAreaButton : QToolButton
  deriving DecidableEq, Repr

/-- Dereference `ui->name`. -/
def Ui.get (u : Ui) : Button → QToolButton
  | .mirrorButton => u.mirrorButton
  | .mirrorVButton => u.mirrorVButton
  | .thinLinesButton => u.thinLinesButton
  | .outLinesButton => u.outLinesButton
  | .overlayCenterButton => u.overlayCenterButton
  | .overlayThirdsButton => u.overlayThirdsButton
  | .overlayGoldenRatioButton => u.overlayGoldenRatioButton
  | .overlaySafeAreaButton => u.overlaySafeAreaButton

/-- Store a new state for the button `ui->name`. -/
def Ui.put (u : Ui) (b : Button) (q : QToolButton) : Ui :=
  match b with
  | .mirrorButton => { u with mirrorButton := q }
  | .mirrorVButton => { u with mirrorVButton := q }
  | .thinLinesButton => { u with thinLinesButton := q }
  | .outLinesButton => { u with outLinesButton := q }
  | .overlayCenterButton => { u with overlayCenterButton := q }
  | .overlayThirdsButton => { u with overlayThirdsButton := q }
  | .overlayGoldenRatioButton => { u with overlayGoldenRatioButton := q }
  | .overlaySafeAreaButton => { u with overlaySafeAreaButton := q }

/-- The two button signals that matter here: `clicked(bool)` is emitted on a
user click, `toggled(bool)` whenever the checked flag changes. -/
inductive ButtonSignal
  | clicked
  | toggled
  deriving DecidableEq, Repr

/-- The slots that `makeConnections` attaches to button signals: the six toggle
handlers of the panel and the two `ScribbleArea` slots. -/
inductive ButtonSlot
  | toggleMirror
  | toggleMirrorV
  | toggleOverlayCenter
  | toggleOverlayThirds
  | toggleOverlayGoldenRatio
  | toggleOverlaySafeAreas
  | scribbleToggleThinLines
  | scribbleToggleOutlines
  deriving DecidableEq, Repr

/-- One `connect(...)` call: a button signal wired to a button slot, or one of
the two manager notifications wired to `DisplayOptionWidget::updateUI`. -/
inductive Connection
  | button (sender : Button) (signal : ButtonSignal) (receiver : ButtonSlot)
  | optionChangedToUpdateUI
  | viewFlippedToUpdateUI
  deriving DecidableEq, Repr

/-- Alignment values of a layout; `initUI` uses `Qt::AlignHCenter`. -/
inductive Alignment
  | AlignLeft
  | AlignRight
  | AlignHCenter
  deriving DecidableEq, Repr

/-- A `FlowLayout`: its alignment, if one was set, and its widgets in the order
they were added. -/
structure FlowLayout where
  alignment : Option Alignment
  widgets : List Button
  deriving DecidableEq, Repr

/-- The layout of `scrollAreaWidgetContents`: the one that came with the form,
or a flow layout installed later. -/
inductive Layout
  | form
  | flow (l : FlowLayout)
  deriving DecidableEq, Repr

/-- The state of the panel together with the editor-side state it reaches.
`slotCalls` is a ghost trace: every slot run by a button signal is appended to
it with the argument it received. -/
structure DisplayOptionWidget where
  ui : Ui
  editor : Editor
  connections : List Connection
  layout : Layout
  slotCalls : List (ButtonSlot × Bool)

namespace DisplayOptionWidget

/-! ## The toggle handlers (source lines 148-180) -/

/-- Source: `editor()->view()->flipHorizontal(isOn);` -/
def toggleMirror (isOn : Bool) (w : DisplayOptionWidget) : DisplayOptionWidget :=
  { w with editor := { w.editor with view := w.editor.view.flipHorizontal isOn } }

/-- Source: `editor()->view()->flipVertical(isOn);` -/
def toggleMirrorV (isOn : Bool) (w : DisplayOptionWidget) : DisplayOptionWidget :=
  { w with editor := { w.editor with view := w.editor.view.flipVertical isOn } }

/-- Source: `view()->setOverlayCenter(isOn); preference()->set(OVERLAY_CENTER, isOn);` -/
def toggleOverlayCenter (isOn : Bool) (w : DisplayOptionWidget) : DisplayOptionWidget :=
  let w := { w with editor := { w.editor with view := w.editor.view.setOverlayCenter isOn } }
  { w with editor :=
      { w.editor with preference := w.editor.preference.set SETTING.OVERLAY_CENTER isOn } }

/-- Source: `view()->setOverlayThirds(isOn); preference()->set(OVERLAY_THIRDS, isOn);` -/
def toggleOverlayThirds (isOn : Bool) (w : DisplayOptionWidget) : DisplayOptionWidget :=
  let w := { w with editor := { w.editor with view := w.editor.view.setOverlayThirds isOn } }
  { w with editor :=
      { w.editor with preference := w.editor.preference.set SETTING.OVERLAY_THIRDS isOn } }

/-- Source: `view()->setOverlayGoldenRatio(isOn); preference()->set(OVERLAY_GOLDEN, isOn);` -/
def toggleOverlayGoldenRatio (isOn : Bool) (w : DisplayOptionWidget) : DisplayOptionWidget :=
  let w :=
    { w with editor := { w.editor with view := w.editor.view.setOverlayGoldenRatio isOn } }
  { w with editor :=
      { w.editor with preference := w.editor.preference.set SETTING.OVERLAY_GOLDEN isOn } }

/-- Source: `view()->setOverlaySafeAreas(isOn); preference()->set(OVERLAY_SAFE, isOn);` -/
def toggleOverlaySafeAreas (isOn : Bool) (w : DisplayOptionWidget) : DisplayOptionWidget :=
  let w :=
    { w with editor := { w.editor with view := w.editor.view.setOverlaySafeAreas isOn } }
  { w with editor :=
      { w.editor with preference := w.editor.preference.set SETTING.OVERLAY_SAFE isOn } }

/-! ## Signal delivery -/

/-- Run one slot with the signal's argument, recording the call. The two
`ScribbleArea` slots take no argument. -/
def invoke (sa : ScribbleArea) (slot : ButtonSlot) (arg : Bool) (w : DisplayOptionWidget) :
    DisplayOptionWidget :=
  let w := { w with slotCalls := w.slotCalls ++ [(slot, arg)] }
  match slot with
  | .toggleMirror => toggleMirror arg w
  | .toggleMirrorV => toggleMirrorV arg w
  | .toggleOverlayCenter => toggleOverlayCenter arg w
  | .toggleOverlayThirds => toggleOverlayThirds arg w
  | .toggleOverlayGoldenRatio => toggleOverlayGoldenRatio arg w
  | .toggleOverlaySafeAreas => toggleOverlaySafeAreas arg w
  | .scribbleToggleThinLines => { w with editor := sa.toggleThinLines w.editor }
  | .scribbleToggleOutlines => { w with editor := sa.toggleOutlines w.editor }

/-- Emit a button signal: nothing happens while the sender blocks its signals;
otherwise every slot connected to this signal of this sender runs, in
connection order. -/
def emitSignal (sa : ScribbleArea) (w : DisplayOptionWidget) (sender : Button)
    (signal : ButtonSignal) (arg : Bool) : DisplayOptionWidget :=
  if (w.ui.get sender).signalsBlocked then w
  else
    w.connections.foldl
      (fun acc c =>
        match c with
        | .button s g r => if s = sender ∧ g = signal then invoke sa r arg acc else acc
        | _ => acc)
      w

/-- Qt: `QWidget::setEnabled`. It emits no signal. -/
def setEnabled (w : DisplayOptionWidget) (b : Button) (value : Bool) : DisplayOptionWidget :=
  { w with ui := w.ui.put b { w.ui.get b with enabled := value } }

/-- Qt: `QAbstractButton::setChecked` on a checkable button. Nothing happens when
the flag already has the value; otherwise the flag is stored and `toggled(value)`
is emitted. -/
def setChecked (sa : ScribbleArea) (w : DisplayOptionWidget) (b : Button) (value : Bool) :
    DisplayOptionWidget :=
  if (w.ui.get b).checked = value then w
  else emitSignal sa { w with ui := w.ui.put b { w.ui.get b with checked := value } } b
    ButtonSignal.toggled value

/-- Qt: `QAbstractButton::click` on an enabled checkable button, the effect of a
user click: the checked flag flips, `toggled` and then `clicked` are emitted
with the checked value. A disabled button ignores the click. -/
def click (sa : ScribbleArea) (w : DisplayOptionWidget) (b : Button) : DisplayOptionWidget :=
  if (w.ui.get b).enabled then
    let w := setChecked sa w b (!(w.ui.get b).checked)
    emitSignal sa w b ButtonSignal.clicked (w.ui.get b).checked
  else w

/-- A live `QSignalBlocker`: the object it blocks and the blocking state to
restore. -/
structure QSignalBlocker where
  target : Button
  wasBlocked : Bool
  deriving DecidableEq, Repr

/-- Constructor of `QSignalBlocker`: `blockSignals(true)`, remembering the old
value. -/
def QSignalBlocker.block (b : Button) (w : DisplayOptionWidget) :
    QSignalBlocker × DisplayOptionWidget :=
  ({ target := b, wasBlocked := (w.ui.get b).signalsBlocked },
   { w with ui := w.ui.put b { w.ui.get b with signalsBlocked := true } })

/-- Destructor of `QSignalBlocker`: `blockSignals(wasBlocked)`. -/
def QSignalBlocker.release (k : QSignalBlocker) (w : DisplayOptionWidget) :
    DisplayOptionWidget :=
  { w with ui := w.ui.put k.target { w.ui.get k.target with signalsBlocked := k.wasBlocked } }

/-! ## updateUI (source lines 101-141) -/

/-- The resync. Statement by statement as in the source; `prefs` and `view` are
pointers, so every read sees the editor-side state of that moment. The eight
blockers live until the end of the body and are destroyed in reverse order of
construction. -/
def updateUI (sa : ScribbleArea) (w : DisplayOptionWidget) : DisplayOptionWidget :=
  let canEnableVectorButtons : Bool :=
    decide (w.editor.layers.currentLayerType = LAYER_TYPE.VECTOR)
  let w := setEnabled w .thinLinesButton canEnableVectorButtons
  let w := setEnabled w .outLinesButton canEnableVectorButtons
  let (b1, w) := QSignalBlocker.block .thinLinesButton w
  let w := setChecked sa w .thinLinesButton (w.editor.preference.isOn .INVISIBLE_LINES)
  let (b2, w) := QSignalBlocker.block .outLinesButton w
  let w := setChecked sa w .outLinesButton (w.editor.preference.isOn .OUTLINES)
  let (b9, w) := QSignalBlocker.block .overlayCenterButton w
  let w := setChecked sa w .overlayCenterButton (w.editor.preference.isOn .OVERLAY_CENTER)
  let (b10, w) := QSignalBlocker.block .overlayThirdsButton w
  let w := setChecked sa w .overlayThirdsButton (w.editor.preference.isOn .OVERLAY_THIRDS)
  let (b11, w) := QSignalBlocker.block .overlayGoldenRatioButton w
  let w := setChecked sa w .overlayGoldenRatioButton (w.editor.preference.isOn .OVERLAY_GOLDEN)
  let (b12, w) := QSignalBlocker.block .overlaySafeAreaButton w
  let w := setChecked sa w .overlaySafeAreaButton (w.editor.preference.isOn .OVERLAY_SAFE)
  let w :=
    if w.editor.preference.isOn .ACTION_SAFE_ON || w.editor.preference.isOn .TITLE_SAFE_ON then
      setEnabled w .overlaySafeAreaButton true
    else
      setEnabled w .overlaySafeAreaButton false
  let (b3, w) := QSignalBlocker.block .mirrorButton w
  let w := setChecked sa w .mirrorButton w.editor.view.isFlipHorizontal
  let (b4, w) := QSignalBlocker.block .mirrorVButton w
  let w := setChecked sa w .mirrorVButton w.editor.view.isFlipVertical
  let w := b4.release w
  let w := b3.release w
  let w := b12.release w
  let w := b11.release w
  let w := b10.release w
  let w := b9.release w
  let w := b2.release w
  b1.release w

/-! ## makeConnections (source lines 81-99) and initUI (source lines 44-79) -/

/-- The ten `connect` calls, in source order, appended to the connection
table. -/
def makeConnections (w : DisplayOptionWidget) : DisplayOptionWidget :=
  { w with connections := w.connections ++
      [ .button .mirrorButton .clicked .toggleMirror,
        .button .mirrorVButton .clicked .toggleMirrorV,
        .button .overlayCenterButton .clicked .toggleOverlayCenter,
        .button .overlayThirdsButton .clicked .toggleOverlayThirds,
        .button .overlayGoldenRatioButton .clicked .toggleOverlayGoldenRatio,
        .button .overlaySafeAreaButton .clicked .toggleOverlaySafeAreas,
        .button .thinLinesButton .clicked .scribbleToggleThinLines,
        .button .outLinesButton .clicked .scribbleToggleOutlines,
        .optionChangedToUpdateUI,
        .viewFlippedToUpdateUI ] }

/-- Source lines 49-61: a new `FlowLayout`, centred, the eight buttons added in
source order, then installed in place of the old layout. -/
def buildLayout (w : DisplayOptionWidget) : DisplayOptionWidget :=
  let layout : FlowLayout := { alignment := none, widgets := [] }
  let layout := { layout with alignment := some Alignment.AlignHCenter }
  let layout := { layout with widgets := layout.widgets ++ [Button.mirrorButton] }
  let layout := { layout with widgets := layout.widgets ++ [Button.mirrorVButton] }
  let layout := { layout with widgets := layout.widgets ++ [Button.thinLinesButton] }
  let layout := { layout with widgets := layout.widgets ++ [Button.outLinesButton] }
  let layout := { layout with widgets := layout.widgets ++ [Button.overlayCenterButton] }
  let layout := { layout with widgets := layout.widgets ++ [Button.overlayThirdsButton] }
  let layout := { layout with widgets := layout.widgets ++ [Button.overlayGoldenRatioButton] }
  let layout := { layout with widgets := layout.widgets ++ [Button.overlaySafeAreaButton] }
  { w with layout := Layout.flow layout }

/-- The three steps of the body of `initUI`. The Mac-only style sheet that
follows them changes no state modelled here. -/
inductive InitStep
  | updateUI
  | makeConnections
  | buildLayout
  deriving DecidableEq, Repr

/-- The body of `initUI`, as the sequence of its steps in source order:
line 46 `updateUI();`, line 47 `makeConnections();`, lines 49-61 the layout. -/
def initUISteps : List InitStep :=
  [InitStep.updateUI, InitStep.makeConnections, InitStep.buildLayout]

/-- Execute one step of `initUI`. -/
def runInitStep (sa : ScribbleArea) (s : InitStep) (w : DisplayOptionWidget) :
    DisplayOptionWidget :=
  match s with
  | .updateUI => updateUI sa w
  | .makeConnections => makeConnections w
  | .buildLayout => buildLayout w

/-- Execute a sequence of steps from left to right. -/
def runInitSteps (sa : ScribbleArea) (steps : List InitStep) (w : DisplayOptionWidget) :
    DisplayOptionWidget :=
  steps.foldl (fun acc s => runInitStep sa s acc) w

/-- The method `initUI`: its steps, run in source order. -/
def initUI (sa : ScribbleArea) (w : DisplayOptionWidget) : DisplayOptionWidget :=
  runInitSteps sa initUISteps w

/-! ## Auxiliary definitions used by the theorems -/

/-- The ui a resync produces from editor-side state `e` and prior ui `u`,
written out field by field. `updateUI_eq` proves that `updateUI` computes it. -/
def reflect (e : Editor) (u : Ui) : Ui :=
  { mirrorButton := { u.mirrorButton with checked := e.view.isFlipHorizontal }
    mirrorVButton := { u.mirrorVButton with checked := e.view.isFlipVertical }
    thinLinesButton :=
      { checked := e.preference.isOn .INVISIBLE_LINES
        enabled := decide (e.layers.currentLayerType = LAYER_TYPE.VECTOR)
        signalsBlocked := u.thinLinesButton.signalsBlocked }
    outLinesButton :=
      { checked := e.preference.isOn .OUTLINES
        enabled := decide (e.layers.currentLayerType = LAYER_TYPE.VECTOR)
        signalsBlocked := u.outLinesButton.signalsBlocked }
    overlayCenterButton :=
      { u.overlayCenterButton with checked := e.preference.isOn .OVERLAY_CENTER }
    overlayThirdsButton :=
      { u.overlayThirdsButton with checked := e.preference.isOn .OVERLAY_THIRDS }
    overlayGoldenRatioButton :=
      { u.overlayGoldenRatioButton with checked := e.preference.isOn .OVERLAY_GOLDEN }
    overlaySafeAreaButton :=
      { checked := e.preference.isOn .OVERLAY_SAFE
        enabled := e.preference.isOn .ACTION_SAFE_ON || e.preference.isOn .TITLE_SAFE_ON
        signalsBlocked := u.overlaySafeAreaButton.signalsBlocked } }

/-- In a sequence of steps, `later` comes after `earlier`: both occur and the
first occurrence of `earlier` precedes the first occurrence of `later`. -/
def comesAfter (steps : List InitStep) (later earlier : InitStep) : Prop :=
  earlier ∈ steps ∧ later ∈ steps ∧ steps.indexOf earlier < steps.indexOf later

instance (steps : List InitStep) (later earlier : InitStep) :
    Decidable (comesAfter steps later earlier) := by
  unfold comesAfter
  exact inferInstance

/-- The order of steps that the specification describes for the initialisation:
layout, then wiring, then the initial resync. -/
def specInitSteps : List InitStep :=
  [InitStep.buildLayout, InitStep.makeConnections, InitStep.updateUI]

/-! ### What can happen to a panel -/

/-- One event in the life of a panel: a call of one of its methods, a user click
on a button, a slot run with some argument, or a change of the editor-side state
made elsewhere in the application. -/
inductive PanelOp
  | updateUI
  | makeConnections
  | buildLayout
  | initUI
  | click (b : Button)
  | slot (s : ButtonSlot) (arg : Bool)
  | editorChange (e : Editor)

/-- Apply one event. -/
def runOp (sa : ScribbleArea) (op : PanelOp) (w : DisplayOptionWidget) : DisplayOptionWidget :=
  match op with
  | .updateUI => updateUI sa w
  | .makeConnections => makeConnections w
  | .buildLayout => buildLayout w
  | .initUI => initUI sa w
  | .click b => click sa w b
  | .slot s arg => invoke sa s arg w
  | .editorChange e => { w with editor := e }

/-- Apply a sequence of events from left to right. -/
def runOps (sa : ScribbleArea) (ops : List PanelOp) (w : DisplayOptionWidget) :
    DisplayOptionWidget :=
  ops.foldl (fun acc op => runOp sa op acc) w

/-- The enabled flags of the five buttons on which no line of
`displayoptionwidget.cpp` calls `setEnabled`: mirror, mirror-vertical,
overlay-center, overlay-thirds, overlay-golden. -/
def unwrittenEnabled (u : Ui) : Bool × Bool × Bool × Bool × Bool :=
  (u.mirrorButton.enabled, u.mirrorVButton.enabled, u.overlayCenterButton.enabled,
    u.overlayThirdsButton.enabled, u.overlayGoldenRatioButton.enabled)

/-! ### Concrete states for the closed statements -/

/-- A `ScribbleArea` whose two slots flip the preference they are named after. -/
def sampleScribble : ScribbleArea :=
  { toggleThinLines := fun e =>
      { e with preference :=
          e.preference.set .INVISIBLE_LINES (!e.preference.isOn .INVISIBLE_LINES) }
    toggleOutlines := fun e =>
      { e with preference := e.preference.set .OUTLINES (!e.preference.isOn .OUTLINES) } }

/-- A button that is unchecked, enabled, and does not block its signals. -/
def freshButton : QToolButton :=
  { checked := false, enabled := true, signalsBlocked := false }

/-- A form of eight fresh buttons. -/
def freshUi : Ui :=
  { mirrorButton := freshButton
    mirrorVButton := freshButton
    thinLinesButton := freshButton
    outLinesButton := freshButton
    overlayCenterButton := freshButton
    overlayThirdsButton := freshButton
    overlayGoldenRatioButton := freshButton
    overlaySafeAreaButton := freshButton }

/-- Editor-side state: thin lines and the thirds overlay on, everything else
off, no flip, a vector layer current. -/
def sampleEditor : Editor :=
  { preference :=
      { booleanSet := fun k =>
          match k with
          | .INVISIBLE_LINES => true
          | .OVERLAY_THIRDS => true
          | _ => false }
    view :=
      { isFlipHorizontal := false
        isFlipVertical := false
        overlayCenter := false
        overlayThirds := true
        overlayGoldenRatio := false
        overlaySafeAreas := false }
    layers := { currentLayerType := LAYER_TYPE.VECTOR } }

/-- A panel right after construction: fresh buttons, nothing connected, the
layout of the form. -/
def sampleWidget : DisplayOptionWidget :=
  { ui := freshUi
    editor := sampleEditor
    connections := []
    layout := Layout.form
    slotCalls := [] }

/-- A panel whose mirror button has its `toggled` signal wired to
`toggleMirror`, with no blocker in place. -/
def sampleWidgetToggledWired : DisplayOptionWidget :=
  { sampleWidget with
    connections := [Connection.button .mirrorButton .toggled .toggleMirror] }

/-! ## Lemmas -/

theorem Ui.put_get_self (u : Ui) (b : Button) : u.put b (u.get b) = u := by
  cases b <;> rfl

/-- While the button blocks its signals, `setChecked` only stores the flag. -/
theorem setChecked_blocked (sa : ScribbleArea) (w : DisplayOptionWidget) (b : Button)
    (value : Bool) (h : (w.ui.get b).signalsBlocked = true) :
    setChecked sa w b value =
      { w with ui := w.ui.put b { w.ui.get b with checked := value } } := by
  unfold setChecked
  split
  · next hc =>
    have hq : ({ w.ui.get b with checked := value } : QToolButton) = w.ui.get b := by
      rw [← hc]
    rw [hq, Ui.put_get_self]
  · unfold emitSignal
    have hb : (Ui.get (Ui.put w.ui b { w.ui.get b with checked := value }) b).signalsBlocked
        = true := by
      cases b <;> simpa [Ui.get, Ui.put] using h
    simp [hb]

theorem setEnabled_ite (w : DisplayOptionWidget) (b : Button) (c : Bool) :
    (if c = true then setEnabled w b true else setEnabled w b false) = setEnabled w b c := by
  cases c <;> rfl

/-- The resync in closed form: only the ui changes, and it becomes `reflect`. -/
theorem updateUI_eq (sa : ScribbleArea) (w : DisplayOptionWidget) :
    updateUI sa w = { w with ui := reflect w.editor w.ui } := by
  obtain ⟨⟨b1, b2, b3, b4, b5, b6, b7, b8⟩, e, c, l, s⟩ := w
  simp only [updateUI, setEnabled_ite]
  simp only [QSignalBlocker.block, QSignalBlocker.release, setEnabled, Ui.get, Ui.put]
  simp [setChecked_blocked, Ui.get, Ui.put, reflect]

theorem reflect_idem (e : Editor) (u : Ui) : reflect e (reflect e u) = reflect e u := rfl

/-- The signal machinery is live: without a blocker, `setChecked` on a button
whose `toggled` signal is wired to `toggleMirror` runs the handler, which writes
the view. -/
theorem setChecked_unblocked_runs_slot :
    (setChecked sampleScribble sampleWidgetToggledWired .mirrorButton true).slotCalls
        = [(ButtonSlot.toggleMirror, true)] ∧
      (setChecked sampleScribble sampleWidgetToggledWired
        .mirrorButton true).editor.view.isFlipHorizontal = true := by
  constructor <;> rfl

/-- A user click on the enabled overlay-center button of a wired panel runs
`toggleOverlayCenter` with the new checked value. -/
theorem click_overlayCenter_after_makeConnections :
    (click sampleScribble (makeConnections sampleWidget) .overlayCenterButton).slotCalls
        = [(ButtonSlot.toggleOverlayCenter, true)] ∧
      (click sampleScribble (makeConnections sampleWidget)
        .overlayCenterButton).editor.view.overlayCenter = true ∧
      (click sampleScribble (makeConnections sampleWidget)
        .overlayCenterButton).editor.preference.isOn .OVERLAY_CENTER = true := by
  refine ⟨?_, ?_, ?_⟩ <;> rfl

/-- Running the steps in the order the specification gives ends in the same
state as `initUI`: the order is not observable in the final state. -/
theorem initUI_eq_specOrder (sa : ScribbleArea) (w : DisplayOptionWidget) :
    runInitSteps sa specInitSteps w = initUI sa w := by
  simp only [initUI, runInitSteps, specInitSteps, initUISteps, List.foldl, runInitStep,
    updateUI_eq]
  rfl

/-! ### No event writes the enabled flag of the five buttons -/

theorem invoke_ui (sa : ScribbleArea) (s : ButtonSlot) (arg : Bool) (w : DisplayOptionWidget) :
    (invoke sa s arg w).ui = w.ui := by
  cases s <;> rfl

theorem deliver_ui (sa : ScribbleArea) (sender : Button) (signal : ButtonSignal) (arg : Bool)
    (cs : List Connection) (w : DisplayOptionWidget) :
    (cs.foldl
      (fun acc c =>
        match c with
        | .button s g r => if s = sender ∧ g = signal then invoke sa r arg acc else acc
        | _ => acc)
      w).ui = w.ui := by
  induction cs generalizing w with
  | nil => rfl
  | cons c cs ih =>
    rw [List.foldl_cons, ih]
    cases c with
    | button s g r =>
      dsimp only
      split
      · exact invoke_ui sa r arg w
      · rfl
    | optionChangedToUpdateUI => rfl
    | viewFlippedToUpdateUI => rfl

theorem emitSignal_ui (sa : ScribbleArea) (w : DisplayOptionWidget) (sender : Button)
    (signal : ButtonSignal) (arg : Bool) :
    (emitSignal sa w sender signal arg).ui = w.ui := by
  unfold emitSignal
  split
  · rfl
  · exact deliver_ui sa sender signal arg w.connections w

theorem setChecked_unwrittenEnabled (sa : ScribbleArea) (w : DisplayOptionWidget) (b : Button)
    (value : Bool) :
    unwrittenEnabled (setChecked sa w b value).ui = unwrittenEnabled w.ui := by
  unfold setChecked
  split
  · rfl
  · rw [emitSignal_ui]
    cases b <;> rfl

theorem click_unwrittenEnabled (sa : ScribbleArea) (w : DisplayOptionWidget) (b : Button) :
    unwrittenEnabled (click sa w b).ui = unwrittenEnabled w.ui := by
  unfold click
  split
  · dsimp only
    rw [emitSignal_ui, setChecked_unwrittenEnabled]
  · rfl

theorem updateUI_unwrittenEnabled (sa : ScribbleArea) (w : DisplayOptionWidget) :
    unwrittenEnabled (updateUI sa w).ui = unwrittenEnabled w.ui := by
  rw [updateUI_eq]
  rfl

theorem runOp_unwrittenEnabled (sa : ScribbleArea) (op : PanelOp) (w : DisplayOptionWidget) :
    unwrittenEnabled (runOp sa op w).ui = unwrittenEnabled w.ui := by
  cases op with
  | updateUI => exact updateUI_unwrittenEnabled sa w
  | makeConnections => rfl
  | buildLayout => rfl
  | initUI =>
    have h : (runOp sa PanelOp.initUI w).ui = (updateUI sa w).ui := rfl
    rw [h, updateUI_unwrittenEnabled]
  | click b => exact click_unwrittenEnabled sa w b
  | slot s arg =>
    have h : (runOp sa (PanelOp.slot s arg) w).ui = w.ui := invoke_ui sa s arg w
    rw [h]
  | editorChange e => rfl

/-- Whatever happens to a panel, the enabled flag of mirror, mirror-vertical,
overlay-center, overlay-thirds and overlay-golden stays what it was. -/
theorem runOps_unwrittenEnabled (sa : ScribbleArea) (ops : List PanelOp)
    (w : DisplayOptionWidget) :
    unwrittenEnabled (runOps sa ops w).ui = unwrittenEnabled w.ui := by
  unfold runOps
  induction ops generalizing w with
  | nil => rfl
  | cons op ops ih => rw [List.foldl_cons, ih, runOp_unwrittenEnabled]

/-- Two states of one panel can differ and still resync to the same ui: after a
click on the mirror button the ui differs from the fresh one. -/
theorem runOps_click_changes_ui :
    (runOps sampleScribble [PanelOp.click Button.mirrorButton] sampleWidget).ui
      ≠ (runOps sampleScribble [] sampleWidget).ui := by
  decide

/-! ## The claims -/

/-- C1: after `updateUI`, whatever the prior panel state, the connection table
and the editor-side state, the checked flag of each of the eight buttons equals
its source of truth read at call time: thin-lines = INVISIBLE_LINES, outlines =
OUTLINES, overlay-center = OVERLAY_CENTER, overlay-thirds = OVERLAY_THIRDS,
overlay-golden = OVERLAY_GOLDEN, overlay-safe = OVERLAY_SAFE, mirror =
isFlipHorizontal, mirror-vertical = isFlipVertical. -/
theorem updateUI_checked_mirrors_source (sa : ScribbleArea) (w : DisplayOptionWidget) :
    (updateUI sa w).ui.thinLinesButton.checked = w.editor.preference.isOn .INVISIBLE_LINES ∧
    (updateUI sa w).ui.outLinesButton.checked = w.editor.preference.isOn .OUTLINES ∧
    (updateUI sa w).ui.overlayCenterButton.checked
      = w.editor.preference.isOn .OVERLAY_CENTER ∧
    (updateUI sa w).ui.overlayThirdsButton.checked
      = w.editor.preference.isOn .OVERLAY_THIRDS ∧
    (updateUI sa w).ui.overlayGoldenRatioButton.checked
      = w.editor.preference.isOn .OVERLAY_GOLDEN ∧
    (updateUI sa w).ui.overlaySafeAreaButton.checked
      = w.editor.preference.isOn .OVERLAY_SAFE ∧
    (updateUI sa w).ui.mirrorButton.checked = w.editor.view.isFlipHorizontal ∧
    (updateUI sa w).ui.mirrorVButton.checked = w.editor.view.isFlipVertical := by
  rw [updateUI_eq]
  exact ⟨rfl, rfl, rfl, rfl, rfl, rfl, rfl, rfl⟩

/-- C2: after `updateUI`, the thin-lines button is enabled exactly when the
current layer is a vector layer, and so is the outlines button; replacing the
whole preference store by any other one does not change either enabled flag. -/
theorem updateUI_vector_buttons_enabled_iff (sa : ScribbleArea) (w : DisplayOptionWidget) :
    ((updateUI sa w).ui.thinLinesButton.enabled = true
        ↔ w.editor.layers.currentLayerType = LAYER_TYPE.VECTOR) ∧
    ((updateUI sa w).ui.outLinesButton.enabled = true
        ↔ w.editor.layers.currentLayerType = LAYER_TYPE.VECTOR) ∧
    (∀ p : PreferenceManager,
      (updateUI sa { w with editor := { w.editor with preference := p } }).ui.thinLinesButton.enabled
          = (updateUI sa w).ui.thinLinesButton.enabled ∧
      (updateUI sa { w with editor := { w.editor with preference := p } }).ui.outLinesButton.enabled
          = (updateUI sa w).ui.outLinesButton.enabled) := by
  refine ⟨?_, ?_, ?_⟩
  · rw [updateUI_eq]
    simp [reflect]
  · rw [updateUI_eq]
    simp [reflect]
  · intro p
    rw [updateUI_eq, updateUI_eq]
    exact ⟨rfl, rfl⟩

/-- C3: after `updateUI`, the overlay-safe button is enabled exactly when
ACTION_SAFE_ON or TITLE_SAFE_ON is on; writing any value to OVERLAY_SAFE (the
button's checked value) beforehand does not change the enabled flag. -/
theorem updateUI_overlaySafe_enabled_iff (sa : ScribbleArea) (w : DisplayOptionWidget) :
    ((updateUI sa w).ui.overlaySafeAreaButton.enabled = true
        ↔ (w.editor.preference.isOn .ACTION_SAFE_ON = true
            ∨ w.editor.preference.isOn .TITLE_SAFE_ON = true)) ∧
    (∀ v : Bool,
      (updateUI sa { w with editor :=
          { w.editor with preference :=
              { booleanSet := fun k =>
                  if k = SETTING.OVERLAY_SAFE then v else w.editor.preference.booleanSet k } }
        }).ui.overlaySafeAreaButton.enabled
        = (updateUI sa w).ui.overlaySafeAreaButton.enabled) := by
  refine ⟨?_, ?_⟩
  · rw [updateUI_eq]
    simp [reflect]
  · intro v
    rw [updateUI_eq, updateUI_eq]
    simp [reflect, PreferenceManager.isOn]

/-- C4: `updateUI` runs no slot and leaves the editor-side state as it was, for
every connection table (also one that wires `toggled` to a handler) and every
prior blocking state of the buttons: the trace of slot calls is unchanged, and
the preference store, the view flags and the layer type are those from before
the call. The connection table and the layout are untouched as well. -/
theorem updateUI_runs_no_slot (sa : ScribbleArea) (w : DisplayOptionWidget) :
    (updateUI sa w).slotCalls = w.slotCalls ∧
    (updateUI sa w).editor = w.editor ∧
    (∀ k : SETTING,
      (updateUI sa w).editor.preference.isOn k = w.editor.preference.isOn k) ∧
    (updateUI sa w).editor.view.isFlipHorizontal = w.editor.view.isFlipHorizontal ∧
    (updateUI sa w).editor.view.isFlipVertical = w.editor.view.isFlipVertical ∧
    (updateUI sa w).editor.view.overlayCenter = w.editor.view.overlayCenter ∧
    (updateUI sa w).editor.view.overlayThirds = w.editor.view.overlayThirds ∧
    (updateUI sa w).editor.view.overlayGoldenRatio = w.editor.view.overlayGoldenRatio ∧
    (updateUI sa w).editor.view.overlaySafeAreas = w.editor.view.overlaySafeAreas ∧
    (updateUI sa w).editor.layers.currentLayerType = w.editor.layers.currentLayerType ∧
    (updateUI sa w).connections = w.connections ∧
    (updateUI sa w).layout = w.layout := by
  rw [updateUI_eq]
  exact ⟨rfl, rfl, fun _ => rfl, rfl, rfl, rfl, rfl, rfl, rfl, rfl, rfl, rfl⟩

/-- C5: each of the four overlay handlers, for every `isOn` and every prior
state, leaves its view overlay flag equal to `isOn` and its preference key
(OVERLAY_CENTER, OVERLAY_THIRDS, OVERLAY_GOLDEN, OVERLAY_SAFE) equal to
`isOn`. -/
theorem toggleOverlay_sets_view_and_preference (isOn : Bool) (w : DisplayOptionWidget) :
    ((toggleOverlayCenter isOn w).editor.view.overlayCenter = isOn ∧
      (toggleOverlayCenter isOn w).editor.preference.isOn .OVERLAY_CENTER = isOn) ∧
    ((toggleOverlayThirds isOn w).editor.view.overlayThirds = isOn ∧
      (toggleOverlayThirds isOn w).editor.preference.isOn .OVERLAY_THIRDS = isOn) ∧
    ((toggleOverlayGoldenRatio isOn w).editor.view.overlayGoldenRatio = isOn ∧
      (toggleOverlayGoldenRatio isOn w).editor.preference.isOn .OVERLAY_GOLDEN = isOn) ∧
    ((toggleOverlaySafeAreas isOn w).editor.view.overlaySafeAreas = isOn ∧
      (toggleOverlaySafeAreas isOn w).editor.preference.isOn .OVERLAY_SAFE = isOn) := by
  simp [toggleOverlayCenter, toggleOverlayThirds, toggleOverlayGoldenRatio,
    toggleOverlaySafeAreas, ViewManager.setOverlayCenter, ViewManager.setOverlayThirds,
    ViewManager.setOverlayGoldenRatio, ViewManager.setOverlaySafeAreas,
    PreferenceManager.set, PreferenceManager.isOn]

/-- C5 at a concrete state: OVERLAY_CENTER is off, `toggleOverlayCenter true`
runs, and afterwards the view flag and the preference are both on. -/
theorem toggleOverlay_sets_view_and_preference_witness :
    sampleWidget.editor.preference.isOn .OVERLAY_CENTER = false ∧
    (toggleOverlayCenter true sampleWidget).editor.view.overlayCenter = true ∧
    (toggleOverlayCenter true sampleWidget).editor.preference.isOn .OVERLAY_CENTER = true :=
  ⟨rfl, (toggleOverlay_sets_view_and_preference true sampleWidget).1.1,
    (toggleOverlay_sets_view_and_preference true sampleWidget).1.2⟩

/-- C6: mirror round trip. After `toggleMirror true` the view reports a
horizontal flip; a following `updateUI` leaves the mirror button checked; a
further `updateUI` returns the very same state; and `updateUI` is idempotent
from every state. -/
theorem mirror_round_trip (sa : ScribbleArea) (w : DisplayOptionWidget) :
    (toggleMirror true w).editor.view.isFlipHorizontal = true ∧
    (updateUI sa (toggleMirror true w)).ui.mirrorButton.checked = true ∧
    updateUI sa (updateUI sa (toggleMirror true w)) = updateUI sa (toggleMirror true w) ∧
    updateUI sa (updateUI sa w) = updateUI sa w := by
  refine ⟨rfl, ?_, ?_, ?_⟩
  · rw [updateUI_eq]
    rfl
  · rw [updateUI_eq, updateUI_eq]
    rfl
  · rw [updateUI_eq, updateUI_eq]
    rfl

/-- C7: `toggleMirror isOn` sets the horizontal flip flag to `isOn` and leaves
the vertical flip flag, the four overlay flags and the preference store as they
were; `toggleMirrorV isOn` sets the vertical flip flag to `isOn` and leaves the
horizontal flip flag, the four overlay flags and the preference store as they
were. -/
theorem toggleMirror_frame (isOn : Bool) (w : DisplayOptionWidget) :
    ((toggleMirror isOn w).editor.view.isFlipHorizontal = isOn ∧
      (toggleMirror isOn w).editor.view.isFlipVertical = w.editor.view.isFlipVertical ∧
      (toggleMirror isOn w).editor.view.overlayCenter = w.editor.view.overlayCenter ∧
      (toggleMirror isOn w).editor.view.overlayThirds = w.editor.view.overlayThirds ∧
      (toggleMirror isOn w).editor.view.overlayGoldenRatio
        = w.editor.view.overlayGoldenRatio ∧
      (toggleMirror isOn w).editor.view.overlaySafeAreas = w.editor.view.overlaySafeAreas ∧
      (toggleMirror isOn w).editor.preference = w.editor.preference) ∧
    ((toggleMirrorV isOn w).editor.view.isFlipVertical = isOn ∧
      (toggleMirrorV isOn w).editor.view.isFlipHorizontal = w.editor.view.isFlipHorizontal ∧
      (toggleMirrorV isOn w).editor.view.overlayCenter = w.editor.view.overlayCenter ∧
      (toggleMirrorV isOn w).editor.view.overlayThirds = w.editor.view.overlayThirds ∧
      (toggleMirrorV isOn w).editor.view.overlayGoldenRatio
        = w.editor.view.overlayGoldenRatio ∧
      (toggleMirrorV isOn w).editor.view.overlaySafeAreas = w.editor.view.overlaySafeAreas ∧
      (toggleMirrorV isOn w).editor.preference = w.editor.preference) :=
  ⟨⟨rfl, rfl, rfl, rfl, rfl, rfl, rfl⟩, ⟨rfl, rfl, rfl, rfl, rfl, rfl, rfl⟩⟩

/-- C8: pure reflection. Take one panel `w0` and any two panel states it can be
in, each reached by some sequence of events (method calls, clicks, slot runs,
external changes). For every editor-side state `e`, `updateUI` on the first
state over `e` and `updateUI` on the second state over `e` give the same checked
flag and the same enabled flag for each of the eight buttons. -/
theorem updateUI_pure_reflection (sa : ScribbleArea) (w0 : DisplayOptionWidget)
    (ops1 ops2 : List PanelOp) (e : Editor) (b : Button) :
    ((updateUI sa { runOps sa ops1 w0 with editor := e }).ui.get b).checked
      = ((updateUI sa { runOps sa ops2 w0 with editor := e }).ui.get b).checked ∧
    ((updateUI sa { runOps sa ops1 w0 with editor := e }).ui.get b).enabled
      = ((updateUI sa { runOps sa ops2 w0 with editor := e }).ui.get b).enabled := by
  have h1 := runOps_unwrittenEnabled sa ops1 w0
  have h2 := runOps_unwrittenEnabled sa ops2 w0
  rw [← h2] at h1
  simp only [unwrittenEnabled, Prod.mk.injEq] at h1
  obtain ⟨hm, hmv, hc, ht, hg⟩ := h1
  rw [updateUI_eq, updateUI_eq]
  cases b
  · exact ⟨rfl, hm⟩
  · exact ⟨rfl, hmv⟩
  · exact ⟨rfl, rfl⟩
  · exact ⟨rfl, rfl⟩
  · exact ⟨rfl, hc⟩
  · exact ⟨rfl, ht⟩
  · exact ⟨rfl, hg⟩
  · exact ⟨rfl, rfl⟩

/-- C9: layer-change scenario. Start from the state a resync produced while the
current layer was a vector layer; change only the layer type, to any other
type; resync again. Before the change both vector buttons are enabled; after the
second resync both are disabled, and the checked flag of every button is what
it was before the change. -/
theorem layer_change_disables_vector_buttons (sa : ScribbleArea) (w : DisplayOptionWidget)
    (t : LAYER_TYPE) (hv : w.editor.layers.currentLayerType = LAYER_TYPE.VECTOR)
    (ht : t ≠ LAYER_TYPE.VECTOR) :
    (updateUI sa w).ui.thinLinesButton.enabled = true ∧
    (updateUI sa w).ui.outLinesButton.enabled = true ∧
    (updateUI sa { updateUI sa w with
        editor := { (updateUI sa w).editor with layers := { currentLayerType := t } }
      }).ui.thinLinesButton.enabled = false ∧
    (updateUI sa { updateUI sa w with
        editor := { (updateUI sa w).editor with layers := { currentLayerType := t } }
      }).ui.outLinesButton.enabled = false ∧
    (∀ b : Button,
      ((updateUI sa { updateUI sa w with
          editor := { (updateUI sa w).editor with layers := { currentLayerType := t } }
        }).ui.get b).checked = ((updateUI sa w).ui.get b).checked) := by
  rw [updateUI_eq sa w, updateUI_eq]
  refine ⟨?_, ?_, ?_, ?_, ?_⟩
  · simp [reflect, hv]
  · simp [reflect, hv]
  · simp [reflect, ht]
  · simp [reflect, ht]
  · intro b
    cases b <;> rfl

/-- C9 at a concrete state: a fresh panel over a vector layer with thin lines
on, the layer then changing to the type tagged 1 (a bitmap layer). -/
theorem layer_change_disables_vector_buttons_witness :
    sampleWidget.editor.layers.currentLayerType = LAYER_TYPE.VECTOR ∧
    LAYER_TYPE.OTHER 1 ≠ LAYER_TYPE.VECTOR ∧
    (updateUI sampleScribble sampleWidget).ui.thinLinesButton.enabled = true ∧
    (updateUI sampleScribble { updateUI sampleScribble sampleWidget with
        editor := { (updateUI sampleScribble sampleWidget).editor with
          layers := { currentLayerType := LAYER_TYPE.OTHER 1 } }
      }).ui.thinLinesButton.enabled = false ∧
    (updateUI sampleScribble { updateUI sampleScribble sampleWidget with
        editor := { (updateUI sampleScribble sampleWidget).editor with
          layers := { currentLayerType := LAYER_TYPE.OTHER 1 } }
      }).ui.thinLinesButton.checked = true :=
  ⟨rfl, by decide,
    (layer_change_disables_vector_buttons sampleScribble sampleWidget (LAYER_TYPE.OTHER 1)
      rfl (by decide)).1,
    (layer_change_disables_vector_buttons sampleScribble sampleWidget (LAYER_TYPE.OTHER 1)
      rfl (by decide)).2.2.1,
    by
      have h := (layer_change_disables_vector_buttons sampleScribble sampleWidget
        (LAYER_TYPE.OTHER 1) rfl (by decide)).2.2.2.2 Button.thinLinesButton
      rw [updateUI_eq sampleScribble sampleWidget] at h ⊢
      exact h⟩

/-- C10 as stated fails: in the body of `initUI` the call to `updateUI` does not
come after the call to `makeConnections`, nor after the layout is built; it is
the first step, and on a fresh panel it runs while nothing is connected and the
layout is still the one of the form. -/
theorem initUI_updateUI_not_last :
    ¬ comesAfter initUISteps InitStep.updateUI InitStep.makeConnections ∧
    ¬ comesAfter initUISteps InitStep.updateUI InitStep.buildLayout ∧
    initUISteps.head? = some InitStep.updateUI ∧
    (runInitSteps sampleScribble (initUISteps.takeWhile (fun s => s != InitStep.updateUI))
      sampleWidget).connections = [] ∧
    (runInitSteps sampleScribble (initUISteps.takeWhile (fun s => s != InitStep.updateUI))
      sampleWidget).layout = Layout.form := by
  refine ⟨by decide, by decide, rfl, rfl, rfl⟩

/-- C10, amended: `initUI` performs the initial resync first, then
`makeConnections` wires the click handlers and the two change notifications
(`optionChanged`, `viewFlipped`) to `updateUI`, and then the layout is built:
`makeConnections` comes after `updateUI`, the layout after `makeConnections`.
The resulting state is the resync of the prior state with the ten connections
appended and the centred flow layout of the eight buttons installed. -/
theorem initUI_order_and_effect (sa : ScribbleArea) (w : DisplayOptionWidget) :
    initUISteps = [InitStep.updateUI, InitStep.makeConnections, InitStep.buildLayout] ∧
    comesAfter initUISteps InitStep.makeConnections InitStep.updateUI ∧
    comesAfter initUISteps InitStep.buildLayout InitStep.makeConnections ∧
    initUI sa w = buildLayout (makeConnections (updateUI sa w)) ∧
    (initUI sa w).ui = (updateUI sa w).ui ∧
    (initUI sa w).editor = w.editor ∧
    (initUI sa w).connections = w.connections ++
      [ Connection.button .mirrorButton .clicked .toggleMirror,
        Connection.button .mirrorVButton .clicked .toggleMirrorV,
        Connection.button .overlayCenterButton .clicked .toggleOverlayCenter,
        Connection.button .overlayThirdsButton .clicked .toggleOverlayThirds,
        Connection.button .overlayGoldenRatioButton .clicked .toggleOverlayGoldenRatio,
        Connection.button .overlaySafeAreaButton .clicked .toggleOverlaySafeAreas,
        Connection.button .thinLinesButton .clicked .scribbleToggleThinLines,
        Connection.button .outLinesButton .clicked .scribbleToggleOutlines,
        Connection.optionChangedToUpdateUI,
        Connection.viewFlippedToUpdateUI ] ∧
    (initUI sa w).layout = Layout.flow
      { alignment := some Alignment.AlignHCenter
        widgets :=
          [ Button.mirrorButton, Button.mirrorVButton, Button.thinLinesButton,
            Button.outLinesButton, Button.overlayCenterButton, Button.overlayThirdsButton,
            Button.overlayGoldenRatioButton, Button.overlaySafeAreaButton ] } := by
  have h : initUI sa w = buildLayout (makeConnections (updateUI sa w)) := rfl
  refine ⟨rfl, by decide, by decide, h, ?_, ?_, ?_, ?_⟩
  · rw [h]
    rfl
  · rw [h, updateUI_eq]
    rfl
  · rw [h, updateUI_eq]
    rfl
  · rw [h]
    rfl

end DisplayOptionWidget

end Pencil
